import Mathlib

/-!
Verification development for the Logix logging facade
(src/loggerfacade.h, src/loggerfacade.cpp, src/main.cpp).

The C++ code is shallowly embedded: configuration resolution
(`LoggerConfig::loadFromEnv`), the facade state machine
(`LoggerFacade::initialize` / `setLogLevel` / `shutdown`) and the custom
UDP sink (`UdpSink::log`) become total Lean functions over explicit state.
Exceptions are modelled with `Except` or, for the catch-all inside
`initialize`, with an explicit oracle in a `World` value that says which
fallible external steps fail.  Third-party behaviour the code relies on
(spdlog level names and pattern rendering, nlohmann::json serialization)
is modelled from its documented, stable contract.
-/

namespace Logging

/-- Severity levels, mirroring `spdlog::level::level_enum`
(trace < debug < info < warn < err < critical < off). -/
inductive Level where
  | trace
  | debug
  | info
  | warn
  | err
  | critical
  | off
deriving DecidableEq

/-- Numeric value of a level, as in the spdlog enum. -/
def Level.toNat : Level → Nat
  | .trace => 0
  | .debug => 1
  | .info => 2
  | .warn => 3
  | .err => 4
  | .critical => 5
  | .off => 6

/-- Modelled from the spec: `spdlog::level::to_string_view` (third-party,
not under src/) returns the long level names; in particular `warn` renders
as `"warning"` and `err` as `"error"`. -/
def levelName : Level → String
  | .trace => "trace"
  | .debug => "debug"
  | .info => "info"
  | .warn => "warning"
  | .err => "error"
  | .critical => "critical"
  | .off => "off"

/-- Modelled from the spec: `spdlog::level::from_str` (third-party, not
under src/) matches the long names, additionally accepts `"warn"` and
`"err"`, and yields `off` for anything unknown. -/
def Level.fromStr (s : String) : Level :=
  if s = "trace" then .trace
  else if s = "debug" then .debug
  else if s = "info" then .info
  else if s = "warning" then .warn
  else if s = "error" then .err
  else if s = "critical" then .critical
  else if s = "off" then .off
  else if s = "warn" then .warn
  else if s = "err" then .err
  else .off

/-- Wall-clock timestamp of a log record, already broken into the calendar
fields that the formatter prints (`std::tm` plus milliseconds). -/
structure Timestamp where
  year : Nat
  month : Nat
  day : Nat
  hour : Nat
  minute : Nat
  sec : Nat
  ms : Nat
deriving DecidableEq

/-- Two-digit zero padding, as produced by `%m %d %H %M %S` / `put_time`. -/
def pad2 (n : Nat) : String :=
  if n < 10 then "0" ++ toString n else toString n

/-- Three-digit zero padding, as produced by spdlog's `%e` and by
`std::setw(3)` with fill '0' in `UdpSink::log`. -/
def pad3 (n : Nat) : String :=
  if n < 10 then "00" ++ toString n
  else if n < 100 then "0" ++ toString n
  else toString n

/-- Time string `YYYY-MM-DD HH:MM:SS.mmm` as computed in `UdpSink::log`
via `put_time(&bt, "%Y-%m-%d %H:%M:%S")` followed by `'.'` and the
three-digit millisecond count. -/
def timeString (t : Timestamp) : String :=
  toString t.year ++ "-" ++ pad2 t.month ++ "-" ++ pad2 t.day ++ " " ++
    pad2 t.hour ++ ":" ++ pad2 t.minute ++ ":" ++ pad2 t.sec ++ "." ++ pad3 t.ms

/-- Log record as seen by a sink: `spdlog::details::log_msg`
(time, level, logger name, message text). -/
structure LogMsg where
  time : Timestamp
  level : Level
  loggerName : String
  message : String
deriving DecidableEq

/-- Modelled from the spec: expansion of a single spdlog pattern flag
(the pattern grammar is an external collaborator's contract, §4.2); the
flags of the default pattern `%Y-%m-%d %H:%M:%S.%e [%n] [%l] %v` are
modelled, an unknown flag is reproduced verbatim. -/
def renderFlag (m : LogMsg) (c : Char) : String :=
  if c = 'Y' then toString m.time.year
  else if c = 'm' then pad2 m.time.month
  else if c = 'd' then pad2 m.time.day
  else if c = 'H' then pad2 m.time.hour
  else if c = 'M' then pad2 m.time.minute
  else if c = 'S' then pad2 m.time.sec
  else if c = 'e' then pad3 m.time.ms
  else if c = 'n' then m.loggerName
  else if c = 'l' then levelName m.level
  else if c = 'v' then m.message
  else "%" ++ String.singleton c

/-- Character-by-character expansion of a pattern string. -/
def renderChars (m : LogMsg) : List Char → String
  | [] => ""
  | '%' :: [] => "%"
  | '%' :: c :: rest => renderFlag m c ++ renderChars m rest
  | c :: rest => String.singleton c ++ renderChars m rest

/-- Modelled from the spec: `spdlog::pattern_formatter::format` renders
the pattern and appends the default end-of-line `"\n"`. -/
def renderPattern (pattern : String) (m : LogMsg) : String :=
  renderChars m pattern.data ++ "\n"

/-- Lower-case hexadecimal digit, used by JSON `\u00xx` escapes. -/
def hexDigit (n : Nat) : Char :=
  if n < 10 then Char.ofNat (48 + n) else Char.ofNat (87 + n)

/-- Modelled from the spec: JSON string escaping as performed by
`nlohmann::json::dump` (third-party): quote, backslash and the named
control characters get two-character escapes, other control characters a
`\u00xx` escape, everything else passes through. -/
def jsonEscapeChar (c : Char) : String :=
  if c = '"' then "\\\""
  else if c = '\\' then "\\\\"
  else if c = '\x08' then "\\b"
  else if c = '\t' then "\\t"
  else if c = '\n' then "\\n"
  else if c = '\x0c' then "\\f"
  else if c = '\x0d' then "\\r"
  else if c.toNat < 32 then
    "\\u00" ++ String.singleton (hexDigit (c.toNat / 16)) ++
      String.singleton (hexDigit (c.toNat % 16))
  else String.singleton c

/-- JSON escaping of a whole string. -/
def jsonEscape (s : String) : String :=
  String.join (s.data.map jsonEscapeChar)

/-- Modelled from the spec: compact serialization of the four-field object
built in `UdpSink::log`.  `nlohmann::json` stores object members in an
ordered map, so `dump()` emits the keys in sorted order
level, logger, message, time, with no whitespace. -/
def jsonDump (timeStr levelStr loggerStr messageStr : String) : String :=
  "\x7b\"level\":\"" ++ jsonEscape levelStr ++
    "\",\"logger\":\"" ++ jsonEscape loggerStr ++
    "\",\"message\":\"" ++ jsonEscape messageStr ++
    "\",\"time\":\"" ++ jsonEscape timeStr ++ "\"\x7d"

/-- Whitespace as classified by `isspace` in the "C" locale, skipped by
`std::stoi` before the number. -/
def isCppSpace (c : Char) : Bool :=
  c = ' ' ∨ c = '\t' ∨ c = '\n' ∨ c = '\x0b' ∨ c = '\x0c' ∨ c = '\x0d'

/-- Value of a (non-empty) list of decimal digit characters. -/
def digitsToNat (ds : List Char) : Nat :=
  ds.foldl (fun a c => a * 10 + (c.toNat - 48)) 0

/-- Model of `std::stoi`: skip leading whitespace, read an optional sign
and a non-empty run of decimal digits (any trailing garbage is ignored).
`none` models a thrown `std::invalid_argument` (no digits) or
`std::out_of_range` (value outside the 32-bit int range); every call site
in `LoggerConfig::loadFromEnv` catches both and keeps the default. -/
def stoi (s : String) : Option Int :=
  let cs := s.data.dropWhile isCppSpace
  let signAndRest : Int × List Char :=
    match cs with
    | '-' :: rest => (-1, rest)
    | '+' :: rest => (1, rest)
    | _ => (1, cs)
  let ds := signAndRest.2.takeWhile Char.isDigit
  if ds.isEmpty then none
  else
    let v : Int := signAndRest.1 * (digitsToNat ds : Int)
    if v < -2147483648 ∨ 2147483647 < v then none else some v

/-- Split of a character list at commas.  Composed with the non-empty
filter below this coincides with the `std::getline(ss, mode, ',')` loop
of `LoggerConfig::loadFromEnv`, which yields the comma-separated pieces
(the loop drops a trailing empty piece, but empty pieces are discarded
anyway). -/
def splitComma : List Char → List String
  | [] => [""]
  | c :: rest =>
    if c = ',' then "" :: splitComma rest
    else
      match splitComma rest with
      | [] => [String.singleton c]
      | t :: ts => (String.singleton c ++ t) :: ts

/-- Process environment: an association list of variable/value pairs,
looked up by `std::getenv`. -/
def Env : Type := List (String × String)

/-- Model of `std::getenv`: first binding of the variable, if any. -/
def getenv (env : Env) (k : String) : Option String :=
  (env.find? (fun p => p.1 = k)).map (fun p => p.2)

/-- Warning diagnostics emitted through `spdlog::warn` during
`LoggerConfig::loadFromEnv`. -/
inductive Warning where
  | fileSizeNotPositive
  | fileSizeInvalid
  | numFilesNotPositive
  | numFilesInvalid
  | portInvalid
  | udpFormatInvalid
deriving DecidableEq

/-- Modelled from the spec: default rotation size in MB.  The field
`fileSizeMb` is used by src/loggerfacade.cpp but its declaration (and so
its default initializer) is missing from src/loggerfacade.h; the spec
calls it an "implementation default", and the comment at the
rotating-sink construction says "5MB". -/
def defaultFileSizeMb : Nat := 5

/-- Modelled from the spec: default retained rotated-file count.  The
field `numberOfLogFiles` is used by src/loggerfacade.cpp but missing from
src/loggerfacade.h; the spec calls it an "implementation default", and
the comment at the rotating-sink construction says "3 files". -/
def defaultNumberOfLogFiles : Nat := 3

/-- Default text pattern from `LoggerConfig` in src/loggerfacade.h. -/
def defaultLogPattern : String := "%Y-%m-%d %H:%M:%S.%e [%n] [%l] %v"

/-- Configuration snapshot, mirroring `struct LoggerConfig`
(src/loggerfacade.h) plus the two fields the .cpp uses. -/
structure LoggerConfig where
  logModes : List String
  filePath : String
  networkIp : String
  networkPort : Nat
  fileSizeMb : Nat
  numberOfLogFiles : Nat
  logLevel : String
  logPattern : String
  udpFormat : String
deriving DecidableEq

/-- Model of `LoggerConfig::loadFromEnv` (src/loggerfacade.cpp lines
105-192), additionally returning the list of warnings emitted, in order.
`LOG_MODE` is split on commas with empty pieces dropped, defaulting to
`["none"]`; sizes and counts are accepted only when positive;
`LOG_NETWORK_PORT` goes through `static_cast<uint16_t>(std::stoi(...))`,
i.e. reduction modulo 2^16; the literal environment variable name
`LOG_NIMBER_OF_LOG_FILES` (sic) is taken verbatim from the source. -/
def LoggerConfig.loadFromEnv (env : Env) : LoggerConfig × List Warning :=
  let modes0 : List String :=
    match getenv env "LOG_MODE" with
    | some s => (splitComma s.data).filter (fun m => ¬ m = "")
    | none => []
  let logModes := if modes0.isEmpty then ["none"] else modes0
  let filePath :=
    match getenv env "LOG_FILE_PATH" with
    | some s => s
    | none => ""
  let networkIp :=
    match getenv env "LOG_NETWORK_IP" with
    | some s => s
    | none => ""
  let fileSizeRes : Nat × List Warning :=
    match getenv env "LOG_FILE_SIZE_MB" with
    | none => (defaultFileSizeMb, [])
    | some s =>
      match stoi s with
      | some v =>
        if 0 < v then (v.toNat, [])
        else (defaultFileSizeMb, [Warning.fileSizeNotPositive])
      | none => (defaultFileSizeMb, [Warning.fileSizeInvalid])
  let numFilesRes : Nat × List Warning :=
    match getenv env "LOG_NIMBER_OF_LOG_FILES" with
    | none => (defaultNumberOfLogFiles, [])
    | some s =>
      match stoi s with
      | some v =>
        if 0 < v then (v.toNat, [])
        else (defaultNumberOfLogFiles, [Warning.numFilesNotPositive])
      | none => (defaultNumberOfLogFiles, [Warning.numFilesInvalid])
  let portRes : Nat × List Warning :=
    match getenv env "LOG_NETWORK_PORT" with
    | none => (0, [])
    | some s =>
      match stoi s with
      | some v => ((v % 65536).toNat, [])
      | none => (0, [Warning.portInvalid])
  let logLevel :=
    match getenv env "LOG_LEVEL" with
    | some s => s
    | none => "debug"
  let logPattern :=
    match getenv env "LOG_PATTERN" with
    | some s => s
    | none => defaultLogPattern
  let udpRes : String × List Warning :=
    match getenv env "LOG_UDP_FORMAT" with
    | none => ("json", [])
    | some s =>
      if ¬ s = "json" ∧ ¬ s = "plain" then ("json", [Warning.udpFormatInvalid])
      else (s, [])
  (⟨logModes, filePath, networkIp, portRes.1, fileSizeRes.1, numFilesRes.1,
      logLevel, logPattern, udpRes.1⟩,
    fileSizeRes.2 ++ numFilesRes.2 ++ portRes.2 ++ udpRes.2)

/-- Kinds of sinks that `LoggerFacade::initialize` can build.  A rotating
file sink carries its path, size cap in bytes and retained-file count; a
UDP sink carries host, port, encoding, and the value of the `level_`
member that `UdpSink` declares itself.  That member shadows the
non-virtual `level_` of the spdlog sink base class: `udpSink->set_level`
in `initialize` (a call through a `UdpSink` pointer) writes the shadow,
while filtering and `LoggerFacade::setLogLevel` (calls through base
pointers) use the base-class field, modelled as `Sink.level`. -/
inductive SinkKind where
  | nullSink
  | console
  | rotatingFile (path : String) (maxSizeBytes : Nat) (maxFiles : Nat)
  | udp (host : String) (port : Nat) (udpFormat : String) (shadowLevel : Level)
deriving DecidableEq

/-- Active sink: kind, effective (base-class) threshold, and the pattern
its formatter holds. -/
structure Sink where
  kind : SinkKind
  level : Level
  pattern : String
deriving DecidableEq

/-- Observable part of an `spdlog::logger`: name, global threshold,
pattern. -/
structure Logger where
  name : String
  level : Level
  pattern : String
deriving DecidableEq

/-- State of the `LoggerFacade` singleton: the members `logger_`,
`sinks_` and `isInitialized_` of the class in src/loggerfacade.h. -/
structure FacadeState where
  logger : Option Logger
  sinks : List Sink
  isInitialized : Bool
deriving DecidableEq

/-- Fresh facade state (`logger_` null, `sinks_` empty,
`isInitialized_ = false`). -/
def initialState : FacadeState := ⟨none, [], false⟩

/-- External world an `initialize` call runs against: the process
environment, an oracle saying whether the whole file-sink setup for a
path (directory creation, writability probe, rotating-sink construction)
succeeds — the body of the inner `try` at src/loggerfacade.cpp lines
237-261 — and an oracle for an exception escaping the outer `try` from
any other step (thread-pool setup, allocation, ...). -/
structure World where
  env : Env
  fileOk : String → Bool
  catastrophic : Bool

/-- Fallback state built by the `catch` block of
`LoggerFacade::initialize` (lines 308-317): a plain logger named
"null_logger" at spdlog's default level `info`, a fresh null sink at the
sink default level `trace`, and `isInitialized_ = true`.  Neither gets a
pattern set, so both keep spdlog's default pattern. -/
def fallbackState : FacadeState :=
  ⟨some ⟨"null_logger", Level.info, "%+"⟩,
    [⟨SinkKind.nullSink, Level.trace, "%+"⟩], true⟩

/-- Per-mode sink construction loop of `LoggerFacade::initialize`
(lines 232-279), threading the sink vector.  "file" with an empty path or
a failing file setup adds nothing (warning resp. caught exception);
"network" with an empty IP or port 0 adds nothing (the `UdpSink`
constructor's own check can then never fire); any other mode string adds
nothing.  The retained-file count passed to the rotating sink is the
literal `3` from line 256. -/
def sinksLoop (config : LoggerConfig) (lvl : Level) (w : World) :
    List String → List Sink → List Sink
  | [], acc => acc
  | mode :: rest, acc =>
    sinksLoop config lvl w rest
      (if mode = "file" then
        if config.filePath = "" then acc
        else if w.fileOk config.filePath then
          acc ++ [⟨SinkKind.rotatingFile config.filePath
                    (1024 * 1024 * config.fileSizeMb) 3, lvl, config.logPattern⟩]
        else acc
      else if mode = "network" then
        if config.networkIp = "" ∨ config.networkPort = 0 then acc
        else acc ++ [⟨SinkKind.udp config.networkIp config.networkPort
                       config.udpFormat lvl, Level.trace, config.logPattern⟩]
      else acc)

/-- The console sink built first on the non-"none" path (lines 226-229). -/
def consoleSink (lvl : Level) (pattern : String) : Sink :=
  ⟨SinkKind.console, lvl, pattern⟩

/-- Model of `LoggerFacade::initialize` (src/loggerfacade.cpp lines
200-318).  Already initialized: warn and return unchanged.  A
catastrophic exception anywhere in the body: the `catch` block discards
partial state and installs the null fallback.  Otherwise: resolve the
configuration; if the mode list is exactly one entry "none", build the
null sink at level `off` and an off-level "null_logger"; else build the
console sink, run the per-mode loop, and create the async "async_logger"
whose `set_pattern` pushes the configured pattern into every sink.  In
every case the function returns a state — it never raises. -/
def initFacade (st : FacadeState) (w : World) : FacadeState :=
  if st.isInitialized then st
  else if w.catastrophic then fallbackState
  else
    let config := (LoggerConfig.loadFromEnv w.env).1
    let logLevel := Level.fromStr config.logLevel
    if config.logModes.length = 1 ∧ config.logModes.headD "" = "none" then
      ⟨some ⟨"null_logger", Level.off, "%+"⟩,
        [⟨SinkKind.nullSink, Level.off, "%+"⟩], true⟩
    else
      ⟨some ⟨"async_logger", logLevel, config.logPattern⟩,
        sinksLoop config logLevel w config.logModes
          [consoleSink logLevel config.logPattern], true⟩

/-- Message of the `std::runtime_error` thrown by `setLogLevel` and
`getLogger` before initialization. -/
def notInitMsg : String := "Logger not initialized. Call initialize() first."

/-- Model of `LoggerFacade::setLogLevel` (lines 320-336): throws
`runtime_error` when uninitialized; otherwise sets the logger's level and
every sink's base-class level (the loop runs over base-class pointers, so
a UDP sink's shadow member is untouched). -/
def setLogLevel (st : FacadeState) (lvl : Level) : Except String FacadeState :=
  if ¬ st.isInitialized then Except.error notInitMsg
  else Except.ok
    ⟨st.logger.map (fun L => ⟨L.name, lvl, L.pattern⟩),
      st.sinks.map (fun s => ⟨s.kind, lvl, s.pattern⟩), st.isInitialized⟩

/-- Model of `LoggerFacade::shutdown` (lines 338-352): a no-op when
uninitialized; otherwise flushes every sink (returned as the second
component, in order), releases the logger, clears the sink vector and
resets `isInitialized_`. -/
def shutdown (st : FacadeState) : FacadeState × List Sink :=
  if st.isInitialized then (⟨none, [], false⟩, st.sinks) else (st, [])

/-- Threshold test `msg_level >= level_` used by `spdlog`'s
`should_log` on both loggers and sinks. -/
def shouldLog (threshold rec : Level) : Bool :=
  decide (threshold.toNat ≤ rec.toNat)

/-- A record at severity `rec` reaches sink `s` in facade state `st`:
the facade is initialized, the sink is active, the logger's global
threshold admits the record and so does the sink's own (base-class)
threshold. -/
def deliveredTo (st : FacadeState) (rec : Level) (s : Sink) : Prop :=
  st.isInitialized = true ∧ s ∈ st.sinks ∧
    (∃ L, st.logger = some L ∧ shouldLog L.level rec = true) ∧
    shouldLog s.level rec = true

/-- One UDP datagram: destination and payload bytes (as a string). -/
structure Datagram where
  host : String
  port : Nat
  payload : String
deriving DecidableEq

/-- Model of `UdpSink::log` (src/loggerfacade.cpp lines 33-75): format
the message with the sink's pattern formatter; in "json" mode send one
datagram whose payload is the `nlohmann::json` dump of the object with
the time string, the level name, the logger name and — as the "message"
member — the full pattern-formatted line; otherwise send the formatted
line itself as one datagram. -/
def UdpSink.log (host : String) (port : Nat) (pattern udpFormat : String)
    (m : LogMsg) : List Datagram :=
  let plainMsg := renderPattern pattern m
  if udpFormat = "json" then
    [⟨host, port,
      jsonDump (timeString m.time) (levelName m.level) m.loggerName plainMsg⟩]
  else
    [⟨host, port, plainMsg⟩]

/-- Sink kind test: is this a rotating file sink? -/
def SinkKind.isFile : SinkKind → Bool
  | .rotatingFile _ _ _ => true
  | _ => false

lemma mem_sinksLoop (config : LoggerConfig) (lvl : Level) (w : World)
    (l : List String) (acc : List Sink) (s : Sink) (hs : s ∈ acc) :
    s ∈ sinksLoop config lvl w l acc := by
  induction l generalizing acc with
  | nil => simpa [sinksLoop] using hs
  | cons mode rest ih =>
    simp only [sinksLoop]
    apply ih
    split_ifs <;> first | exact hs | exact List.mem_append_left _ hs

lemma sinksLoop_ne_nil (config : LoggerConfig) (lvl : Level) (w : World)
    (l : List String) (acc : List Sink) (s : Sink) (hs : s ∈ acc) :
    sinksLoop config lvl w l acc ≠ [] :=
  List.ne_nil_of_mem (mem_sinksLoop config lvl w l acc s hs)

lemma initFacade_isInitialized (st : FacadeState) (w : World)
    (hst : st.isInitialized = false) : (initFacade st w).isInitialized = true := by
  simp only [initFacade, hst, Bool.false_eq_true, if_false]
  split_ifs <;> rfl

/-- C1: `initialize()` never raises to its caller — it is modelled as a
total function on states — and when an uncaught exception escapes the
configuration-resolution/sink-building steps (the `catastrophic` oracle)
all partial state is discarded: the result is exactly the fallback state,
which holds only the Null sink and is initialized (the Degraded variant
of Ready). -/
theorem C1_exception_falls_back_to_null (st : FacadeState) (w : World)
    (hst : st.isInitialized = false) (hexc : w.catastrophic = true) :
    initFacade st w = fallbackState ∧
      fallbackState.isInitialized = true ∧
      (∀ s ∈ fallbackState.sinks, s.kind = SinkKind.nullSink) ∧
      fallbackState.sinks ≠ [] ∧ fallbackState.logger ≠ none := by
  refine ⟨by simp [initFacade, hst, hexc], rfl, ?_, by simp [fallbackState],
    by simp [fallbackState]⟩
  intro s hs
  simp only [fallbackState, List.mem_singleton] at hs
  rw [hs]

/-- C1 witness: a concrete uninitialized state and a world whose
initialization throws end in the fallback state. -/
theorem C1_witness :
    initFacade initialState ⟨[], fun _ => false, true⟩ = fallbackState :=
  (C1_exception_falls_back_to_null initialState ⟨[], fun _ => false, true⟩ rfl rfl).1

/-- C2: after any `initialize()` call returns — from the uninitialized
state on every path (normal mode combinations, "none", or the exception
fallback), or as the idempotent no-op on an already-valid state — the
facade holds at least one sink and a non-null logger. -/
theorem C2_post_init_nonempty (st : FacadeState) (w : World)
    (h : st.isInitialized = false ∨ (st.sinks ≠ [] ∧ st.logger ≠ none)) :
    (initFacade st w).sinks ≠ [] ∧ (initFacade st w).logger ≠ none := by
  by_cases hinit : st.isInitialized = true
  · have hid : initFacade st w = st := by simp [initFacade, hinit]
    rw [hid]
    rcases h with h | h
    · rw [hinit] at h; cases h
    · exact h
  · have hst : st.isInitialized = false := by simpa using hinit
    by_cases hcat : w.catastrophic = true
    · simp [initFacade, hst, hcat, fallbackState]
    · have hcat2 : w.catastrophic = false := by simpa using hcat
      simp only [initFacade, hst, Bool.false_eq_true, if_false, hcat2]
      split_ifs with hm
      · simp
      · refine ⟨?_, by simp⟩
        exact sinksLoop_ne_nil _ _ _ _ _ _ (List.mem_singleton_self _)

/-- C2 witness: a concrete first-time initialization yields a non-empty
sink set and a logger. -/
theorem C2_witness :
    (initFacade initialState ⟨[("LOG_MODE", "file")], fun _ => true, false⟩).sinks ≠ [] :=
  (C2_post_init_nonempty initialState ⟨[("LOG_MODE", "file")], fun _ => true, false⟩
    (Or.inl rfl)).1

/-- C3: when the resolved mode list is exactly ["none"] — which is what
an unset or empty `LOG_MODE` resolves to — a normal `initialize()` builds
a sink set holding only the Null sink at level `off`, an off-level
logger, and no record at any severity is delivered to a console, file or
network sink (every delivery target is the Null sink). -/
theorem C3_none_mode_suppresses_all (st : FacadeState) (w : World)
    (hst : st.isInitialized = false) (hcat : w.catastrophic = false)
    (hm : (LoggerConfig.loadFromEnv w.env).1.logModes = ["none"]) :
    (initFacade st w).sinks = [⟨SinkKind.nullSink, Level.off, "%+"⟩] ∧
      (initFacade st w).logger = some ⟨"null_logger", Level.off, "%+"⟩ ∧
      (∀ rec s, deliveredTo (initFacade st w) rec s → s.kind = SinkKind.nullSink) ∧
      (∀ e : Env, getenv e "LOG_MODE" = none → (LoggerConfig.loadFromEnv e).1.logModes = ["none"]) ∧
      (∀ e : Env, getenv e "LOG_MODE" = some "" → (LoggerConfig.loadFromEnv e).1.logModes = ["none"]) := by
  have hres : initFacade st w =
      ⟨some ⟨"null_logger", Level.off, "%+"⟩,
        [⟨SinkKind.nullSink, Level.off, "%+"⟩], true⟩ := by
    simp [initFacade, hst, hcat, hm]
  refine ⟨by rw [hres], by rw [hres], ?_, ?_, ?_⟩
  · intro rec s hdel
    rcases hdel with ⟨-, hmem, -, -⟩
    rw [hres] at hmem
    simp only [List.mem_singleton] at hmem
    rw [hmem]
  · intro e he; simp [LoggerConfig.loadFromEnv, he]
  · intro e he
    simp only [LoggerConfig.loadFromEnv, he]
    decide

/-- C3 witness: with an empty environment, initialization yields exactly
the off-level Null sink. -/
theorem C3_witness :
    (initFacade initialState ⟨[], fun _ => true, false⟩).sinks =
      [⟨SinkKind.nullSink, Level.off, "%+"⟩] :=
  (C3_none_mode_suppresses_all initialState ⟨[], fun _ => true, false⟩ rfl rfl
    (by decide)).1

/-- Substring test: does `needle` occur at the start of `hay`? -/
def subListAt (needle hay : List Char) : Bool :=
  match needle, hay with
  | [], _ => true
  | _ :: _, [] => false
  | a :: as, b :: bs => a = b && subListAt as bs

/-- Substring test on character lists. -/
def containsSubList (needle : List Char) : List Char → Bool
  | [] => subListAt needle []
  | hay@(_ :: rest) => subListAt needle hay || containsSubList needle rest

/-- Substring test on strings. -/
def strContains (hay needle : String) : Bool :=
  containsSubList needle.data hay.data

/-- Record used in the UDP wire-format claims: severity warn, message
"test", logged through "async_logger" at a concrete timestamp. -/
def c4msg : LogMsg := ⟨⟨2025, 1, 2, 3, 4, 5, 6⟩, Level.warn, "async_logger", "test"⟩

/-- C4 counterexample: at a concrete warn/"test" record with the default
pattern, the single json-mode datagram payload contains neither
`"level":"warn"` (spdlog names the level `"warning"`) nor
`"message":"test"` (the message member holds the full pattern-rendered
line, not the raw message text). -/
theorem C4_counterexample :
    (UdpSink.log "127.0.0.1" 9999 defaultLogPattern "json" c4msg).map Datagram.payload =
      ["\x7b\"level\":\"warning\",\"logger\":\"async_logger\",\"message\":\"2025-01-02 03:04:05.006 [async_logger] [warning] test\\n\",\"time\":\"2025-01-02 03:04:05.006\"\x7d"] ∧
    strContains "\x7b\"level\":\"warning\",\"logger\":\"async_logger\",\"message\":\"2025-01-02 03:04:05.006 [async_logger] [warning] test\\n\",\"time\":\"2025-01-02 03:04:05.006\"\x7d" "\"level\":\"warn\"" = false ∧
    strContains "\x7b\"level\":\"warning\",\"logger\":\"async_logger\",\"message\":\"2025-01-02 03:04:05.006 [async_logger] [warning] test\\n\",\"time\":\"2025-01-02 03:04:05.006\"\x7d" "\"message\":\"test\"" = false := by
  refine ⟨by decide, by decide, by decide⟩

/-- C4 (amended): with `LOG_UDP_FORMAT=json`, every delivered record
produces exactly one datagram whose payload is the compact JSON object
with exactly the keys level, logger, message, time (serialized in that
sorted order), where the level is spdlog's long level name and the
message member is the pattern-rendered text line; for a warn/"test"
record the payload contains `"level":"warning"` and `"message":"` and
the rendered line containing "test". -/
theorem C4_amended_json_datagram (host : String) (port : Nat) (pattern : String)
    (m : LogMsg) :
    UdpSink.log host port pattern "json" m =
      [⟨host, port, jsonDump (timeString m.time) (levelName m.level) m.loggerName
          (renderPattern pattern m)⟩] ∧
    strContains ((UdpSink.log "127.0.0.1" 9999 defaultLogPattern "json" c4msg).map
        Datagram.payload).headI "\"level\":\"warning\"" = true ∧
    strContains ((UdpSink.log "127.0.0.1" 9999 defaultLogPattern "json" c4msg).map
        Datagram.payload).headI "\"message\":\"" = true ∧
    strContains ((UdpSink.log "127.0.0.1" 9999 defaultLogPattern "json" c4msg).map
        Datagram.payload).headI "test" = true := by
  refine ⟨by simp [UdpSink.log], by decide, by decide, by decide⟩

/-- World for the retained-file-count claim: file mode with a writable
path, both the documented variable name and the misspelled one read by
the code set to 7. -/
def c5world : World :=
  ⟨[("LOG_MODE", "file"), ("LOG_FILE_PATH", "/tmp/app.log"),
    ("LOG_NUMBER_OF_LOG_FILES", "7"), ("LOG_NIMBER_OF_LOG_FILES", "7")],
    fun _ => true, false⟩

/-- C5: the retained-rotated-file count is NOT taken from
`LOG_NUMBER_OF_LOG_FILES`.  The resolver reads the misspelled variable
`LOG_NIMBER_OF_LOG_FILES` into `numberOfLogFiles` (here 7), the
documented spelling alone leaves the default, and either way the
rotating sink is constructed with the hard-coded retained count 3 from
src/loggerfacade.cpp line 256 — the parsed value is never used. -/
theorem C5_retained_count_hardcoded :
    (LoggerConfig.loadFromEnv c5world.env).1.numberOfLogFiles = 7 ∧
    (LoggerConfig.loadFromEnv [("LOG_NUMBER_OF_LOG_FILES", "7")]).1.numberOfLogFiles =
      defaultNumberOfLogFiles ∧
    (initFacade initialState c5world).sinks =
      [⟨SinkKind.console, Level.debug, defaultLogPattern⟩,
       ⟨SinkKind.rotatingFile "/tmp/app.log" (1024 * 1024 * 5) 3, Level.debug,
         defaultLogPattern⟩] := by
  refine ⟨by decide, by decide, by decide⟩

/-- C6: `setLogLevel` before `initialize` fails with the
not-initialized error; after `initialize` it updates the logger's global
threshold and every sink's individual threshold, so a subsequent record
strictly below the new threshold is delivered to no sink. -/
theorem C6_setLevel (st : FacadeState) (lvl : Level) :
    (st.isInitialized = false → setLogLevel st lvl = Except.error notInitMsg) ∧
    (st.isInitialized = true →
      ∃ st2, setLogLevel st lvl = Except.ok st2 ∧
        (∀ L, st2.logger = some L → L.level = lvl) ∧
        (∀ s ∈ st2.sinks, s.level = lvl) ∧
        (∀ rec s, rec.toNat < lvl.toNat → ¬ deliveredTo st2 rec s)) := by
  constructor
  · intro h
    simp [setLogLevel, h]
  · intro h
    refine ⟨⟨st.logger.map (fun L => ⟨L.name, lvl, L.pattern⟩),
      st.sinks.map (fun s => ⟨s.kind, lvl, s.pattern⟩), st.isInitialized⟩,
      by simp [setLogLevel, h], ?_, ?_, ?_⟩
    · intro L hL
      cases hlog : st.logger with
      | none => rw [hlog] at hL; cases hL
      | some L0 =>
        rw [hlog] at hL
        simp only [Option.map_some] at hL
        cases hL
        rfl
    · intro s hs
      simp only [List.mem_map] at hs
      obtain ⟨s0, -, rfl⟩ := hs
      rfl
    · intro rec s hlt hdel
      rcases hdel with ⟨-, hmem, -, hsink⟩
      simp only [List.mem_map] at hmem
      obtain ⟨s0, -, rfl⟩ := hmem
      simp only [shouldLog, decide_eq_true_eq] at hsink
      omega

/-- Facade state used to exercise the initialized branch of C6. -/
def c6state : FacadeState :=
  ⟨some ⟨"async_logger", Level.debug, defaultLogPattern⟩,
    [⟨SinkKind.console, Level.debug, defaultLogPattern⟩], true⟩

/-- C6 witness: concrete uninitialized and initialized states. -/
theorem C6_witness :
    setLogLevel initialState Level.warn = Except.error notInitMsg ∧
    ¬ setLogLevel c6state Level.warn = Except.error notInitMsg := by
  refine ⟨(C6_setLevel initialState Level.warn).1 rfl, ?_⟩
  obtain ⟨st2, h2, -, -, -⟩ := (C6_setLevel c6state Level.warn).2 rfl
  simp [h2]

/-- C7: from a fresh facade, `shutdown()` right after `initialize()`
flushes exactly the active sinks, clears the sink set and the logger and
returns to the uninitialized state, so a subsequent `initialize()`
behaves identically to a first-time initialization; `shutdown()` while
uninitialized is a no-op that flushes nothing. -/
theorem C7_shutdown_restart (w w2 : World) (st : FacadeState) :
    (shutdown (initFacade initialState w)).1 = initialState ∧
    (shutdown (initFacade initialState w)).2 = (initFacade initialState w).sinks ∧
    initFacade (shutdown (initFacade initialState w)).1 w2 = initFacade initialState w2 ∧
    (st.isInitialized = false → shutdown st = (st, [])) := by
  have hinit := initFacade_isInitialized initialState w rfl
  refine ⟨by simp [shutdown, hinit]; rfl, by simp [shutdown, hinit], ?_, ?_⟩
  · have h1 : (shutdown (initFacade initialState w)).1 = initialState := by
      simp [shutdown, hinit]; rfl
    rw [h1]
  · intro h
    simp [shutdown, h]

/-- C7 witness: shutdown of the fresh state is a no-op. -/
theorem C7_witness : shutdown initialState = (initialState, []) :=
  (C7_shutdown_restart ⟨[], fun _ => true, false⟩ ⟨[], fun _ => true, false⟩
    initialState).2.2.2 rfl

/-- C8: whenever `LOG_FILE_SIZE_MB` is set to a value on which
`std::stoi` fails (non-numeric, e.g. "abc", or out of int range) or that
parses non-positive, configuration resolution keeps the default rotation
size and emits a warning, and `initialize()` still completes normally
(it is a total function and reaches the initialized state). -/
theorem C8_bad_file_size_defaults (st : FacadeState) (w : World) (s : String)
    (hs : getenv w.env "LOG_FILE_SIZE_MB" = some s)
    (hbad : stoi s = none ∨ ∃ v, stoi s = some v ∧ v ≤ 0) :
    (LoggerConfig.loadFromEnv w.env).1.fileSizeMb = defaultFileSizeMb ∧
    (Warning.fileSizeInvalid ∈ (LoggerConfig.loadFromEnv w.env).2 ∨
      Warning.fileSizeNotPositive ∈ (LoggerConfig.loadFromEnv w.env).2) ∧
    (st.isInitialized = false → (initFacade st w).isInitialized = true) := by
  refine ⟨?_, ?_, fun h => initFacade_isInitialized st w h⟩
  · rcases hbad with h | ⟨v, hv, hle⟩
    · simp [LoggerConfig.loadFromEnv, hs, h]
    · simp [LoggerConfig.loadFromEnv, hs, hv, show ¬ (0 : Int) < v by omega]
  · rcases hbad with h | ⟨v, hv, hle⟩
    · left
      simp [LoggerConfig.loadFromEnv, hs, h]
    · right
      simp [LoggerConfig.loadFromEnv, hs, hv, show ¬ (0 : Int) < v by omega]

/-- C8 witness: the spec's own example "abc". -/
theorem C8_witness :
    (LoggerConfig.loadFromEnv [("LOG_FILE_SIZE_MB", "abc")]).1.fileSizeMb =
      defaultFileSizeMb :=
  (C8_bad_file_size_defaults initialState
    ⟨[("LOG_FILE_SIZE_MB", "abc")], fun _ => true, false⟩ "abc" rfl
    (Or.inl (by decide))).1

lemma sinksLoop_no_file (config : LoggerConfig) (lvl : Level) (w : World)
    (hfile : config.filePath = "" ∨ w.fileOk config.filePath = false)
    (l : List String) :
    ∀ acc : List Sink, (∀ s ∈ acc, s.kind.isFile = false) →
      ∀ s ∈ sinksLoop config lvl w l acc, s.kind.isFile = false := by
  induction l with
  | nil =>
    intro acc hacc
    simpa [sinksLoop] using hacc
  | cons mode rest ih =>
    intro acc hacc
    simp only [sinksLoop]
    apply ih
    split_ifs with h1 h2 h3 h4 h5
    · exact hacc
    · rcases hfile with h | h
      · exact absurd h h2
      · rw [h] at h3; cases h3
    · exact hacc
    · exact hacc
    · intro s hs
      rcases List.mem_append.mp hs with h | h
      · exact hacc s h
      · simp only [List.mem_singleton] at h
        rw [h]
        rfl
    · exact hacc

lemma udp_mem_sinksLoop (config : LoggerConfig) (lvl : Level) (w : World)
    (hip : ¬ config.networkIp = "") (hport : ¬ config.networkPort = 0)
    (l : List String) :
    ∀ acc : List Sink, "network" ∈ l →
      (⟨SinkKind.udp config.networkIp config.networkPort config.udpFormat lvl,
        Level.trace, config.logPattern⟩ : Sink) ∈ sinksLoop config lvl w l acc := by
  induction l with
  | nil =>
    intro acc h
    cases h
  | cons mode rest ih =>
    intro acc hmem
    simp only [sinksLoop]
    by_cases hm : mode = "network"
    · subst hm
      rw [if_neg (by decide), if_pos rfl, if_neg (by tauto)]
      exact mem_sinksLoop config lvl w rest _ _
        (List.mem_append_right _ (List.mem_singleton_self _))
    · have hrest : "network" ∈ rest := by
        rcases List.mem_cons.mp hmem with h | h
        · exact absurd h.symm hm
        · exact h
      exact ih _ hrest

/-- C9: when the file-sink target is unusable (empty `LOG_FILE_PATH` or a
path whose directory-creation/writability/setup step fails) a normal
`initialize()` adds no rotating file sink, the console sink is still
present, and a validly configured network mode still gets its UDP sink —
nothing propagates out of the per-sink failure. -/
theorem C9_file_failure_isolated (st : FacadeState) (w : World)
    (hst : st.isInitialized = false) (hcat : w.catastrophic = false)
    (hmode : ¬ ((LoggerConfig.loadFromEnv w.env).1.logModes.length = 1 ∧
      (LoggerConfig.loadFromEnv w.env).1.logModes.headD "" = "none"))
    (hfile : (LoggerConfig.loadFromEnv w.env).1.filePath = "" ∨
      w.fileOk (LoggerConfig.loadFromEnv w.env).1.filePath = false) :
    (∀ s ∈ (initFacade st w).sinks, s.kind.isFile = false) ∧
    consoleSink (Level.fromStr (LoggerConfig.loadFromEnv w.env).1.logLevel)
      (LoggerConfig.loadFromEnv w.env).1.logPattern ∈ (initFacade st w).sinks ∧
    (¬ (LoggerConfig.loadFromEnv w.env).1.networkIp = "" →
      ¬ (LoggerConfig.loadFromEnv w.env).1.networkPort = 0 →
      "network" ∈ (LoggerConfig.loadFromEnv w.env).1.logModes →
      (⟨SinkKind.udp (LoggerConfig.loadFromEnv w.env).1.networkIp
          (LoggerConfig.loadFromEnv w.env).1.networkPort
          (LoggerConfig.loadFromEnv w.env).1.udpFormat
          (Level.fromStr (LoggerConfig.loadFromEnv w.env).1.logLevel), Level.trace,
        (LoggerConfig.loadFromEnv w.env).1.logPattern⟩ : Sink) ∈
        (initFacade st w).sinks) := by
  have hres : initFacade st w =
      ⟨some ⟨"async_logger", Level.fromStr (LoggerConfig.loadFromEnv w.env).1.logLevel,
          (LoggerConfig.loadFromEnv w.env).1.logPattern⟩,
        sinksLoop (LoggerConfig.loadFromEnv w.env).1
          (Level.fromStr (LoggerConfig.loadFromEnv w.env).1.logLevel) w
          (LoggerConfig.loadFromEnv w.env).1.logModes
          [consoleSink (Level.fromStr (LoggerConfig.loadFromEnv w.env).1.logLevel)
            (LoggerConfig.loadFromEnv w.env).1.logPattern], true⟩ := by
    simp only [initFacade, hst, Bool.false_eq_true, if_false, hcat, if_neg hmode]
  rw [hres]
  refine ⟨?_, ?_, ?_⟩
  · apply sinksLoop_no_file _ _ _ hfile
    intro s hs
    simp only [List.mem_singleton] at hs
    rw [hs]
    rfl
  · exact mem_sinksLoop _ _ _ _ _ _ (List.mem_singleton_self _)
  · intro hip hport hnet
    exact udp_mem_sinksLoop _ _ _ hip hport _ _ hnet

/-- World used for the C9 witness: file and network modes, an unwritable
file path, a valid network endpoint. -/
def c9world : World :=
  ⟨[("LOG_MODE", "file,network"), ("LOG_FILE_PATH", "/bad/x.log"),
    ("LOG_NETWORK_IP", "127.0.0.1"), ("LOG_NETWORK_PORT", "9999")],
    fun _ => false, false⟩

/-- C9 witness: with the unwritable path, the UDP sink is still built. -/
theorem C9_witness :
    (⟨SinkKind.udp "127.0.0.1" 9999 "json" Level.debug, Level.trace,
      defaultLogPattern⟩ : Sink) ∈ (initFacade initialState c9world).sinks :=
  (C9_file_failure_isolated initialState c9world rfl rfl (by decide)
    (Or.inr rfl)).2.2 (by decide) (by decide) (by decide)

/-- C10: every `LOG_NETWORK_PORT` value that `std::stoi` parses is stored
reduced modulo 2^16 (the `static_cast<uint16_t>`), so "65536" becomes 0
and "-1" becomes 65535 — out-of-range values are neither rejected nor
replaced by the default. -/
theorem C10_port_wraps_mod_65536 (env : Env) (s : String) (v : Int)
    (hs : getenv env "LOG_NETWORK_PORT" = some s) (hv : stoi s = some v) :
    (LoggerConfig.loadFromEnv env).1.networkPort = (v % 65536).toNat ∧
    stoi "65536" = some 65536 ∧ stoi "-1" = some (-1) ∧
    (LoggerConfig.loadFromEnv [("LOG_NETWORK_PORT", "65536")]).1.networkPort = 0 ∧
    (LoggerConfig.loadFromEnv [("LOG_NETWORK_PORT", "-1")]).1.networkPort = 65535 := by
  refine ⟨by simp [LoggerConfig.loadFromEnv, hs, hv], by decide, by decide,
    by decide, by decide⟩

/-- C10 witness: the spec-level example "65536". -/
theorem C10_witness :
    (LoggerConfig.loadFromEnv [("LOG_NETWORK_PORT", "65536")]).1.networkPort =
      ((65536 : Int) % 65536).toNat :=
  (C10_port_wraps_mod_65536 [("LOG_NETWORK_PORT", "65536")] "65536" 65536 rfl
    (by decide)).1

end Logging
